import Mathlib

/-
Verification development for the substratecommon repository.

The Go sources are shallowly embedded as Lean definitions:
pure functions become Lean functions, the mutable wrapper state of the
coherence wrappers becomes explicit state passing, fallible Go functions
return Except, and Go interface error values become an inductive carrying
the dynamic type of the error (value struct, pointer to struct, plain
message) because the code branches on exactly that via type assertions.
-/

namespace Substratecommon

/-- Go byte slices are modelled as lists of naturals. -/
abbrev Bytes := List Nat

/-- Model of a Go interface value passed as the phylum parameters argument
(RequestOptions.Params). The constructor channel stands for any Go value
that encoding/json.Marshal rejects (channels, functions, cyclic data); the
other constructors are marshalable values. -/
inductive GoValue where
  | str (s : String)
  | num (n : Int)
  | arr (xs : List GoValue)
  | channel

/-- Whether encoding/json.Marshal accepts the value. Modelled from the Go
standard library contract: marshalling fails exactly on unsupported types,
recursively through arrays. -/
def GoValue.marshalable : GoValue → Bool
  | .str _ => true
  | .num _ => true
  | .channel => false
  | .arr xs => marshalableList xs
where
  /-- Marshalability of every element of a list of values. -/
  marshalableList : List GoValue → Bool
  | [] => true
  | x :: xs => x.marshalable && marshalableList xs

/-- Total encoder for the marshalable fragment; the output on a value
containing channel is irrelevant because jsonMarshal rejects it first. -/
def GoValue.encode : GoValue → String
  | .str s => "\x22" ++ s ++ "\x22"
  | .num n => toString n
  | .channel => ""
  | .arr xs => "[" ++ String.intercalate "," (encodeList xs) ++ "]"
where
  /-- Encodings of the elements of a list of values. -/
  encodeList : List GoValue → List String
  | [] => []
  | x :: xs => x.encode :: encodeList xs

/-- Model of encoding/json.Marshal as used by FlattenOptions: returns the
serialized payload, or an error for unsupported values. -/
def jsonMarshal (v : GoValue) : Except String String :=
  if v.marshalable then Except.ok v.encode
  else Except.error "json: unsupported type"

/-- Model of a Go context.Context as the coherence code observes it: the
only context value the package reads is the dependent-transaction carrier
installed by ContextWithTransactionID. A carrier is identified by a
natural number standing for the address of its dependentWrapper
allocation; the mutable slot content lives in an explicit CarrierStore. -/
structure GoCtx where
  carrier : Option Nat
deriving DecidableEq

/-- context.Background(): a context with no carrier value. -/
def GoCtx.background : GoCtx := { carrier := none }

/-- substratewrapper.ContextWithTransactionID (substratewrapper.go:363):
attaches a freshly allocated dependentWrapper to the context. Allocation
of the fresh wrapper is modelled by the caller choosing an unused carrier
identifier. -/
def ContextWithTransactionID (ctx : GoCtx) (freshId : Nat) : GoCtx :=
  { ctx with carrier := some freshId }

/-- RequestOptions (substratecommon.go:45): the mutable draft the Config
mutators operate on. Headers, LogFields and Transient are Go maps,
modelled as association lists updated in place by key; Log and Target
only matter by presence. -/
structure RequestOptions where
  Log : Option Unit
  LogFields : List (String × GoValue)
  Headers : List (String × String)
  Endpoint : String
  ID : String
  AuthToken : String
  Params : GoValue
  Transient : List (String × Bytes)
  Target : Option Unit
  TimestampGenerator : Option (Option GoCtx → String)
  MSPFilter : List String
  MinEndorsers : Int
  Creator : String
  Ctx : Option GoCtx
  DependentTxID : String
  DisableWritePolling : Bool
  CCFetchURLDowngrade : Bool
  CCFetchURLProxy : String

/-- ConcreteRequestOptions (substratecommon.go:26): the flattened,
pure-data snapshot produced by FlattenOptions. -/
structure ConcreteRequestOptions where
  Headers : List (String × String)
  Endpoint : String
  ID : String
  AuthToken : String
  Params : String
  Transient : List (String × Bytes)
  Timestamp : String
  MSPFilter : List String
  MinEndorsers : Int
  Creator : String
  DependentTxID : String
  DisableWritePolling : Bool
  CCFetchURLDowngrade : Bool
  CCFetchURLProxy : String
deriving DecidableEq

/-- Go map assignment m[k] = v on an association list: replaces the value
at an existing key, otherwise appends the binding. -/
def assocSet {α : Type} (m : List (String × α)) (k : String) (v : α) :
    List (String × α) :=
  match m with
  | [] => [(k, v)]
  | (k0, v0) :: rest =>
      if k0 = k then (k, v) :: rest else (k0, v0) :: assocSet rest k v

/-- The Config mutators of substratecommon.go (the With* constructors,
substratecommon.go:68-241), as an inductive so a list of applied options
is pure data plus the carried functions and values. -/
inductive Config where
  | withContext (ctx : GoCtx)
  | withLog
  | withLogField (key : String) (value : GoValue)
  | withLogrusFields (fields : List (String × GoValue))
  | withHeader (key value : String)
  | withEndpoint (endpoint : String)
  | withID (id : String)
  | withParams (params : GoValue)
  | withTransientData (key : String) (val : Bytes)
  | withTransientDataMap (data : List (String × Bytes))
  | withResponse
  | withAuthToken (token : String)
  | withTimestampGenerator (g : Option GoCtx → String)
  | withMSPFilter (f : List String)
  | withMinEndorsers (n : Int)
  | withCreator (c : String)
  | withDependentTxID (txID : String)
  | withConditionalDependentTxID (txID : String)
  | withDisableWritePolling (b : Bool)
  | withCCFetchURLDowngrade (b : Bool)
  | withCCFetchURLProxy (p : String)

/-- The action of each Config mutator on the draft, translated clause by
clause from the With* function bodies (substratecommon.go:71-241).
withConditionalDependentTxID (substratecommon.go:212) sets the dependent
transaction id only when write polling is disabled or a dependent id is
already present. -/
def applyConfig (c : Config) (r : RequestOptions) : RequestOptions :=
  match c with
  | .withContext ctx => { r with Ctx := some ctx }
  | .withLog => { r with Log := some () }
  | .withLogField k v => { r with LogFields := assocSet r.LogFields k v }
  | .withLogrusFields fields =>
      { r with LogFields :=
          fields.foldl (fun m kv => assocSet m kv.1 kv.2) r.LogFields }
  | .withHeader k v => { r with Headers := assocSet r.Headers k v }
  | .withEndpoint e => { r with Endpoint := e }
  | .withID i => { r with ID := i }
  | .withParams p => { r with Params := p }
  | .withTransientData k v => { r with Transient := assocSet r.Transient k v }
  | .withTransientDataMap data =>
      { r with Transient :=
          data.foldl (fun m kv => assocSet m kv.1 kv.2) r.Transient }
  | .withResponse => { r with Target := some () }
  | .withAuthToken t => { r with AuthToken := t }
  | .withTimestampGenerator g => { r with TimestampGenerator := some g }
  | .withMSPFilter f => { r with MSPFilter := f }
  | .withMinEndorsers n => { r with MinEndorsers := n }
  | .withCreator c => { r with Creator := c }
  | .withDependentTxID t => { r with DependentTxID := t }
  | .withConditionalDependentTxID t =>
      if r.DisableWritePolling ∨ r.DependentTxID ≠ ""
      then { r with DependentTxID := t } else r
  | .withDisableWritePolling b => { r with DisableWritePolling := b }
  | .withCCFetchURLDowngrade b => { r with CCFetchURLDowngrade := b }
  | .withCCFetchURLProxy p => { r with CCFetchURLProxy := p }

/-- The empty draft FlattenOptions and FlattenContext start from
(substratecommon.go:253-258): empty maps, empty payload array, zero
scalars. -/
def emptyRequestOptions : RequestOptions :=
  { Log := none, LogFields := [], Headers := [], Endpoint := "", ID := ""
  , AuthToken := "", Params := GoValue.arr [], Transient := []
  , Target := none, TimestampGenerator := none, MSPFilter := []
  , MinEndorsers := 0, Creator := "", Ctx := none, DependentTxID := ""
  , DisableWritePolling := false, CCFetchURLDowngrade := false
  , CCFetchURLProxy := "" }

/-- Folding the mutators in order over the empty draft
(substratecommon.go:260-262). -/
def applyConfigs (configs : List Config) : RequestOptions :=
  configs.foldl (fun r c => applyConfig c r) emptyRequestOptions

/-- tsg (substratecommon.go:243): resolve the timestamp with the supplied
generator, falling back to the wall clock when none was given. The wall
clock reading time.Now().UTC().Format(time.RFC3339) is modelled as the
explicit argument now, since it is an effect of the environment. -/
def tsg (now : String) (ctx : Option GoCtx)
    (tg : Option (Option GoCtx → String)) : String :=
  match tg with
  | some f => f ctx
  | none => now

/-- FlattenOptions (substratecommon.go:252): fold the mutators over the
empty draft, serialize the payload parameters, and return the concrete
snapshot; the only failure is the payload serialization error. -/
def FlattenOptions (now : String) (configs : List Config) :
    Except String ConcreteRequestOptions :=
  let opt := applyConfigs configs
  match jsonMarshal opt.Params with
  | Except.error e => Except.error e
  | Except.ok params =>
      Except.ok
        { Headers := opt.Headers, Endpoint := opt.Endpoint, ID := opt.ID
        , AuthToken := opt.AuthToken, Params := params
        , Transient := opt.Transient
        , Timestamp := tsg now opt.Ctx opt.TimestampGenerator
        , MSPFilter := opt.MSPFilter, MinEndorsers := opt.MinEndorsers
        , Creator := opt.Creator, DependentTxID := opt.DependentTxID
        , DisableWritePolling := opt.DisableWritePolling
        , CCFetchURLDowngrade := opt.CCFetchURLDowngrade
        , CCFetchURLProxy := opt.CCFetchURLProxy }

/-- FlattenContext (substratecommon.go:289): fold the mutators over a
fresh empty draft and return the attached context, failing when none was
supplied. -/
def FlattenContext (configs : List Config) : Except String GoCtx :=
  let opt := applyConfigs configs
  match opt.Ctx with
  | none => Except.error "expected context"
  | some ctx => Except.ok ctx

/-- The Error struct (substratecommon.go:310): a structured application
error with a timeout flag and a diagnostic. -/
structure Error where
  IsTimeoutError : Bool
  Diagnostic : String
deriving DecidableEq

/-- A Go error interface value as the package manipulates it, carrying the
dynamic type because PluginRPC.IsTimeoutError branches on it with a type
assertion: val is a substratecommon.Error value, ptr a pointer to one
(what resp.Err holds), str a plain error such as the fmt.Errorf result
errRPC. -/
inductive GoError where
  | val (e : Error)
  | ptr (e : Error)
  | str (msg : String)
deriving DecidableEq

/-- The Error() string of a Go error value: the Diagnostic for the struct
(substratecommon.go:315), the message for a plain error. -/
def GoError.message : GoError → String
  | .val e => e.Diagnostic
  | .ptr e => e.Diagnostic
  | .str m => m

/-- errRPC (substratecommon.go:490): the generic local RPC failure, built
with fmt.Errorf, hence a plain error value and not an Error struct. -/
def errRPC : GoError := GoError.str "RPC failure"

/-- Response (substratecommon.go:320): a shiroclient response. -/
structure Response where
  ResultJSON : Bytes
  HasError : Bool
  ErrorCode : Int
  ErrorMessage : String
  ErrorJSON : Bytes
  TransactionID : String
deriving DecidableEq

/-- Transaction summary (substratecommon.go:339). -/
structure Transaction where
  ID : String
  Reason : String
  Event : Bytes
  ChaincodeID : String
deriving DecidableEq

/-- Block summary (substratecommon.go:347). -/
structure Block where
  Hash : String
  Transactions : List Transaction
deriving DecidableEq

/-- The Substrate plugin interface (substratecommon.go:353) as a record of
operation implementations; results are Except over the Go error model,
operations returning only an error yield Option GoError (none meaning
nil). -/
structure Substrate where
  newRPC : Unit → Except GoError String
  closeRPC : String → Option GoError
  newMockFrom : String → String → Bytes → Except GoError String
  setCreatorWithAttributesMock :
      String → String → List (String × String) → Option GoError
  snapshotMock : String → Except GoError Bytes
  closeMock : String → Option GoError
  init : String → String → ConcreteRequestOptions → Option GoError
  call : String → String → ConcreteRequestOptions → Except GoError Response
  queryInfo : String → ConcreteRequestOptions → Except GoError Nat
  queryBlock : String → Nat → ConcreteRequestOptions → Except GoError Block
  isTimeoutError : GoError → Bool

end Substratecommon

namespace Substratewrapper

open Substratecommon

/-- substrateInstanceWrapperRPC (substratewrapper.go:148): a live session
wrapper holding the plugin interface and the session tag. -/
structure substrateInstanceWrapperRPC where
  substrate : Substrate
  tag : String

/-- substrateInstanceWrapperMock (substratewrapper.go:161): a simulated
session wrapper holding the plugin interface and the session tag. -/
structure substrateInstanceWrapperMock where
  substrate : Substrate
  tag : String

/-- substrateInstanceWrapperRPC.Call (substratewrapper.go:202): flatten
the options, failing before any remote call on a flatten error (the
serialization error becomes the returned plain error); otherwise forward
to the plugin Call with the session tag. -/
def substrateInstanceWrapperRPC.Call (siwr : substrateInstanceWrapperRPC)
    (method : String) (now : String) (configs : List Config) :
    Except GoError Response :=
  match FlattenOptions now configs with
  | Except.error e => Except.error (GoError.str e)
  | Except.ok fo => siwr.substrate.call siwr.tag method fo

/-- substrateInstanceWrapperRPC.GetLastTransactionID
(substratewrapper.go:226): always the empty string. -/
def substrateInstanceWrapperRPC.GetLastTransactionID
    (_siwr : substrateInstanceWrapperRPC) : String := ""

/-- substrateInstanceWrapperMock.GetLastTransactionID
(substratewrapper.go:290): always the empty string. -/
def substrateInstanceWrapperMock.GetLastTransactionID
    (_siwm : substrateInstanceWrapperMock) : String := ""

/-- The mutable state of substrateInstanceWrapperCoherent
(substratewrapper.go:294): the dependent field, initially empty. The
underlying wrapped instance is passed to each operation as a behaviour
(its Call as a function of the configs), since the wrapper only forwards
to it. -/
structure substrateInstanceWrapperCoherent where
  dependent : String
deriving DecidableEq

/-- The configs2 the mutable-state coherent wrapper passes to the
underlying Call (substratewrapper.go:324-327): when the stored dependent
id is non-empty, append the conditional dependent-id option. -/
def coherentConfigs2 (dependent : String) (configs : List Config) :
    List Config :=
  if dependent ≠ ""
  then configs ++ [Config.withConditionalDependentTxID dependent]
  else configs

/-- substrateInstanceWrapperCoherent.Call (substratewrapper.go:323):
issue the underlying call on configs2; on failure return the error with
the stored state unchanged; on success return the response and overwrite
the stored dependent id with the transaction id of the response. The
result pairs the Go return value with the post-state. -/
def coherentCall (underlying : List Config → Except GoError Response)
    (dependent : String) (configs : List Config) :
    Except GoError Response × String :=
  let configs2 := coherentConfigs2 dependent configs
  match underlying configs2 with
  | Except.error e => (Except.error e, dependent)
  | Except.ok resp => (Except.ok resp, resp.TransactionID)

/-- substrateInstanceWrapperCoherent.GetLastTransactionID
(substratewrapper.go:344): the stored dependent id. -/
def substrateInstanceWrapperCoherent.GetLastTransactionID
    (siwc : substrateInstanceWrapperCoherent) : String :=
  siwc.dependent

/-- The mutable slots of all dependentWrapper carriers
(substratewrapper.go:359), indexed by carrier identifier; every slot
starts empty (ContextWithTransactionID allocates an empty wrapper). -/
abbrev CarrierStore := Nat → String

/-- The all-empty carrier store. -/
def emptyStore : CarrierStore := fun _ => ""

/-- The context the context-scoped coherent Call works with
(substratewrapper.go:405-408): the context flattened from the configs,
or context.Background() when none was attached. -/
def contextCoherentCtx (configs : List Config) : GoCtx :=
  match FlattenContext configs with
  | Except.error _ => GoCtx.background
  | Except.ok c => c

/-- The configs2 the context-scoped coherent wrapper passes to the
underlying Call (substratewrapper.go:404-412): when a carrier is attached
and its slot is non-empty, append the unconditional dependent-id option
carrying the slot content. -/
def contextCoherentConfigs2 (store : CarrierStore) (configs : List Config) :
    List Config :=
  match (contextCoherentCtx configs).carrier with
  | some id =>
      if store id ≠ ""
      then configs ++ [Config.withDependentTxID (store id)]
      else configs
  | none => configs

/-- substrateInstanceWrapperContextCoherent.Call
(substratewrapper.go:403-421): extract the carrier, issue the underlying
call on configs2; on failure return the error with every slot unchanged;
on success, when a carrier was attached, store the transaction id of the
response into its slot. The result pairs the Go return value with the
post-state of the carrier store. -/
def contextCoherentCall
    (underlying : List Config → Except GoError Response)
    (store : CarrierStore) (configs : List Config) :
    Except GoError Response × CarrierStore :=
  let carrier := (contextCoherentCtx configs).carrier
  let configs2 := contextCoherentConfigs2 store configs
  match underlying configs2 with
  | Except.error e => (Except.error e, store)
  | Except.ok resp =>
      match carrier with
      | some id =>
          (Except.ok resp,
           fun j => if j = id then resp.TransactionID else store j)
      | none => (Except.ok resp, store)

/-- substrateInstanceWrapperContextCoherent.GetLastTransactionID
(substratewrapper.go:431): always the empty string, whatever the carrier
slots hold. -/
def substrateInstanceWrapperContextCoherent.GetLastTransactionID
    (_store : CarrierStore) : String := ""

end Substratewrapper

namespace Substratecommon

/-- ArgsCall (substratecommon.go:450). -/
structure ArgsCall where
  Tag : String
  Command : String
  Options : ConcreteRequestOptions
deriving DecidableEq

/-- ArgsQueryInfo (substratecommon.go:463). -/
structure ArgsQueryInfo where
  Tag : String
  Options : ConcreteRequestOptions
deriving DecidableEq

/-- ArgsQueryBlock (substratecommon.go:475). -/
structure ArgsQueryBlock where
  Tag : String
  Height : Nat
  Options : ConcreteRequestOptions
deriving DecidableEq

/-- RespCall (substratecommon.go:457); Response and Err are pointers in
Go, hence Option here. -/
structure RespCall where
  Response : Option Response
  Err : Option Error
deriving DecidableEq

/-- RespQueryInfo (substratecommon.go:469). -/
structure RespQueryInfo where
  Height : Nat
  Err : Option Error
deriving DecidableEq

/-- RespQueryBlock (substratecommon.go:482). -/
structure RespQueryBlock where
  Block : Option Block
  Err : Option Error
deriving DecidableEq

/-- The argument payload a client sends over net/rpc for the three
operations the claims exercise, tagged with its concrete Go type. -/
inductive WireRequest where
  | callReq (a : ArgsCall)
  | queryInfo (a : ArgsQueryInfo)
  | queryBlock (a : ArgsQueryBlock)
deriving DecidableEq

/-- The reply payload a server sends back, tagged with its concrete Go
type. -/
inductive WireReply where
  | respCall (r : RespCall)
  | respQueryInfo (r : RespQueryInfo)
  | respQueryBlock (r : RespQueryBlock)
deriving DecidableEq

/-- Gob decoding of a request into ArgsCall: fields are matched by name,
fields absent from the stream keep their zero value, extra fields are
dropped. Modelled from the encoding/gob contract. -/
def decodeArgsCall : WireRequest → Option ArgsCall
  | .callReq a => some a
  | .queryInfo a => some { Tag := a.Tag, Command := "", Options := a.Options }
  | .queryBlock a => some { Tag := a.Tag, Command := "", Options := a.Options }

/-- Gob decoding of a request into ArgsQueryInfo: the Height or Command
field of the other argument types is dropped, Tag and Options carry
over. -/
def decodeArgsQueryInfo : WireRequest → Option ArgsQueryInfo
  | .callReq a => some { Tag := a.Tag, Options := a.Options }
  | .queryInfo a => some a
  | .queryBlock a => some { Tag := a.Tag, Options := a.Options }

/-- Gob decoding of a request into ArgsQueryBlock: a missing Height field
keeps its zero value. -/
def decodeArgsQueryBlock : WireRequest → Option ArgsQueryBlock
  | .callReq a => some { Tag := a.Tag, Height := 0, Options := a.Options }
  | .queryInfo a => some { Tag := a.Tag, Height := 0, Options := a.Options }
  | .queryBlock a => some a

/-- Gob decoding of a reply into RespQueryBlock: Err matches by name in
every reply type; a reply with no Block field leaves the Block pointer
nil. -/
def decodeRespQueryBlock : WireReply → Option RespQueryBlock
  | .respCall r => some { Block := none, Err := r.Err }
  | .respQueryInfo r => some { Block := none, Err := r.Err }
  | .respQueryBlock r => some r

/-- Gob decoding of a reply into RespCall. -/
def decodeRespCall : WireReply → Option RespCall
  | .respCall r => some r
  | .respQueryInfo r => some { Response := none, Err := r.Err }
  | .respQueryBlock r => some { Response := none, Err := r.Err }

/-- PluginRPCServer.newError (substratecommon.go:637): classify the
underlying error with the implementation and wrap diagnostic and flag in
an Error struct. -/
def PluginRPCServer.newError (impl : Substrate) (err : GoError) : Error :=
  { IsTimeoutError := impl.isTimeoutError err, Diagnostic := err.message }

/-- PluginRPCServer.Call (substratecommon.go:716): forward to the
implementation; on failure fill Err, on success fill Response. -/
def PluginRPCServer.Call (impl : Substrate) (args : ArgsCall) : RespCall :=
  match impl.call args.Tag args.Command args.Options with
  | Except.error e =>
      { Response := none, Err := some (PluginRPCServer.newError impl e) }
  | Except.ok res => { Response := some res, Err := none }

/-- PluginRPCServer.QueryInfo (substratecommon.go:727). -/
def PluginRPCServer.QueryInfo (impl : Substrate) (args : ArgsQueryInfo) :
    RespQueryInfo :=
  match impl.queryInfo args.Tag args.Options with
  | Except.error e =>
      { Height := 0, Err := some (PluginRPCServer.newError impl e) }
  | Except.ok h => { Height := h, Err := none }

/-- PluginRPCServer.QueryBlock (substratecommon.go:738). -/
def PluginRPCServer.QueryBlock (impl : Substrate) (args : ArgsQueryBlock) :
    RespQueryBlock :=
  match impl.queryBlock args.Tag args.Height args.Options with
  | Except.error e =>
      { Block := none, Err := some (PluginRPCServer.newError impl e) }
  | Except.ok b => { Block := some b, Err := none }

/-- The net/rpc server side: dispatch by registered method name to the
PluginRPCServer handler of that name, gob-decoding the argument into the
type the handler expects; an unknown method is a call failure. -/
def serverDispatch (impl : Substrate) (method : String)
    (req : WireRequest) : Option WireReply :=
  if method = "Plugin.Call" then
    (decodeArgsCall req).map
      (fun a => WireReply.respCall (PluginRPCServer.Call impl a))
  else if method = "Plugin.QueryInfo" then
    (decodeArgsQueryInfo req).map
      (fun a => WireReply.respQueryInfo (PluginRPCServer.QueryInfo impl a))
  else if method = "Plugin.QueryBlock" then
    (decodeArgsQueryBlock req).map
      (fun a => WireReply.respQueryBlock (PluginRPCServer.QueryBlock impl a))
  else none

/-- g.client.Call: deliver the request to the server over the transport;
transportOK false models any local transport failure (unreachable
endpoint, connection drop), making the round trip fail. -/
def clientCall (impl : Substrate) (transportOK : Bool) (method : String)
    (req : WireRequest) : Option WireReply :=
  if transportOK then serverDispatch impl method req else none

/-- PluginRPC.Call (substratecommon.go:584): send method Plugin.Call with
ArgsCall; a failed round trip yields errRPC; a reply with Err set yields
that Err, whose dynamic type is pointer-to-Error since RespCall.Err is a
pointer field; otherwise the (possibly nil) Response. -/
def PluginRPC.Call (impl : Substrate) (transportOK : Bool) (tag : String)
    (command : String) (options : ConcreteRequestOptions) :
    Except GoError (Option Response) :=
  match (clientCall impl transportOK "Plugin.Call"
      (WireRequest.callReq
        { Tag := tag, Command := command, Options := options })).bind
      decodeRespCall with
  | none => Except.error errRPC
  | some resp =>
      match resp.Err with
      | some e => Except.error (GoError.ptr e)
      | none => Except.ok resp.Response

/-- PluginRPC.QueryBlock (substratecommon.go:610): send the ArgsQueryBlock
payload under the method name the source passes at substratecommon.go:612,
which is Plugin.QueryInfo; decode the reply into RespQueryBlock. -/
def PluginRPC.QueryBlock (impl : Substrate) (transportOK : Bool)
    (tag : String) (height : Nat) (options : ConcreteRequestOptions) :
    Except GoError (Option Block) :=
  match (clientCall impl transportOK "Plugin.QueryInfo"
      (WireRequest.queryBlock
        { Tag := tag, Height := height, Options := options })).bind
      decodeRespQueryBlock with
  | none => Except.error errRPC
  | some resp =>
      match resp.Err with
      | some e => Except.error (GoError.ptr e)
      | none => Except.ok resp.Block

/-- PluginRPC.IsTimeoutError (substratecommon.go:623): a type assertion
err.(Error) to the value type Error, succeeding only when the dynamic
type is exactly the Error struct (not a pointer to it); on success return
its flag, otherwise false. -/
def PluginRPC.IsTimeoutError : GoError → Bool
  | GoError.val e => e.IsTimeoutError
  | _ => false

end Substratecommon

namespace Batch

/-- Modelled from the spec: the batch package of this repository is not
under src (only batch_test.go is), so the Batch Scheduling Driver is
modelled from spec section 4.5. A backend-persisted batch entry: batch
name, request id, scheduled time, payload. Times are modelled as naturals
ordered like the RFC3339 timestamps the test clock produces. -/
structure BatchEntry where
  batchName : String
  requestID : String
  scheduledTime : Nat
  payload : String
deriving DecidableEq

/-- Modelled from the spec: one Tick fetches all entries due at or before
now, where now comes from the same timestamp source as FlattenedOptions.
These are the entries whose handler is invoked in this pass. -/
def tickDue (now : Nat) (pending : List BatchEntry) : List BatchEntry :=
  pending.filter (fun e => e.scheduledTime ≤ now)

/-- Modelled from the spec: entries not yet due are left for a future
Tick; dispatched entries are marked consumed by the follow-up write and
removed from the pending set. -/
def tickRemaining (now : Nat) (pending : List BatchEntry) :
    List BatchEntry :=
  pending.filter (fun e => ¬ e.scheduledTime ≤ now)

/-- Modelled from the spec: run a sequence of Ticks at the given times
over the pending set, recording for each Tick its now together with the
entries dispatched in that pass. -/
def dispatchedAt : List Nat → List BatchEntry → List (Nat × List BatchEntry)
  | [], _ => []
  | now :: rest, pending =>
      (now, tickDue now pending) :: dispatchedAt rest (tickRemaining now pending)

/-- Modelled from the spec: the pending set remaining after a sequence of
Ticks at the given times. -/
def pendingAfterTicks (times : List Nat) (pending : List BatchEntry) :
    List BatchEntry :=
  times.foldl (fun p now => tickRemaining now p) pending

end Batch

namespace Substratewrapper

open Substratecommon

/-- One call of a chain against the context-scoped coherent wrapper: the
carrier its context references and the result the underlying Call
produces for it. -/
structure ChainEvent where
  cid : Nat
  result : Except GoError Response

/-- The option list of a chain call: the caller attaches the context
holding its own carrier, as ContextWithTransactionID prescribes. -/
def callConfigs (cid : Nat) : List Config :=
  [Config.withContext { carrier := some cid }]

/-- The carrier store after one chain call: the post-state of
substrateInstanceWrapperContextCoherent.Call for that event. -/
def chainStep (store : CarrierStore) (ev : ChainEvent) : CarrierStore :=
  (contextCoherentCall (fun _ => ev.result) store (callConfigs ev.cid)).2

/-- The carrier store after an interleaved sequence of chain calls. -/
def chainRun (store : CarrierStore) : List ChainEvent → CarrierStore
  | [] => store
  | ev :: rest => chainRun (chainStep store ev) rest

/-- The transaction ids the backend returned to the successful calls of
the chain on carrier a within an event sequence. -/
def eventTxIDs (a : Nat) (evs : List ChainEvent) : List String :=
  evs.filterMap (fun ev =>
    if ev.cid = a then
      match ev.result with
      | Except.ok r => some r.TransactionID
      | Except.error _ => none
    else none)

/-- The dependency hint a call on carrier cid would carry under the given
store: the DependentTxID field of the options flattened from the configs2
the wrapper passes to the underlying Call (empty meaning no dependency
injected). -/
def injectedHint (store : CarrierStore) (cid : Nat) : String :=
  (applyConfigs (contextCoherentConfigs2 store (callConfigs cid))).DependentTxID

end Substratewrapper

namespace Demo

open Substratecommon

/-- A concrete flattened option snapshot for evaluations. -/
def emptyCRO : ConcreteRequestOptions :=
  { Headers := [], Endpoint := "", ID := "", AuthToken := "", Params := ""
  , Transient := [], Timestamp := "", MSPFilter := [], MinEndorsers := 0
  , Creator := "", DependentTxID := "", DisableWritePolling := false
  , CCFetchURLDowngrade := false, CCFetchURLProxy := "" }

/-- A concrete successful response carrying transaction id tx9. -/
def demoResponse : Response :=
  { ResultJSON := [], HasError := false, ErrorCode := 0, ErrorMessage := ""
  , ErrorJSON := [], TransactionID := "tx9" }

/-- A concrete block summary. -/
def demoBlock : Block := { Hash := "blockhash", Transactions := [] }

/-- A concrete plugin implementation whose operations all succeed, with
the classifier the real backend would use (flag of the structured error,
false for plain errors). -/
def implStub : Substrate :=
  { newRPC := fun _ => Except.ok "tag0"
  , closeRPC := fun _ => none
  , newMockFrom := fun _ _ _ => Except.ok "tag0"
  , setCreatorWithAttributesMock := fun _ _ _ => none
  , snapshotMock := fun _ => Except.ok []
  , closeMock := fun _ => none
  , init := fun _ _ _ => none
  , call := fun _ _ _ => Except.ok demoResponse
  , queryInfo := fun _ _ => Except.ok 7
  , queryBlock := fun _ _ _ => Except.ok demoBlock
  , isTimeoutError := fun e =>
      match e with
      | GoError.val x => x.IsTimeoutError
      | GoError.ptr x => x.IsTimeoutError
      | GoError.str _ => false }

/-- A concrete plugin implementation whose Call reports a structured
timeout application error. -/
def implTimeout : Substrate :=
  { implStub with
    call := fun _ _ _ =>
      Except.error (GoError.val { IsTimeoutError := true
                                , Diagnostic := "deadline" }) }

end Demo

section Claims

open Substratecommon Substratewrapper Batch Demo

/-- Folding one appended mutator after the others. -/
theorem applyConfigs_append_one (configs : List Config) (c : Config) :
    applyConfigs (configs ++ [c]) = applyConfig c (applyConfigs configs) := by
  simp [applyConfigs, List.foldl_append]

/-- Claim C1: on a Call of the mutable-state coherence wrapper with
non-empty stored lastTransactionID, the dependent-transaction id of the
flattened options the underlying call receives is overwritten with the
stored id exactly when the options of the caller have write polling
disabled or already carry a dependent id; when the caller demands default
synchronous execution with no dependency of its own, its options pass
through untouched (fill-gap, never overriding the independent choice);
and with empty lastTransactionID no option is appended at all. -/
theorem coherent_call_dependent_injection
    (dependent : String) (configs : List Config) :
    (coherentConfigs2 "" configs = configs) ∧
    (dependent ≠ "" →
      applyConfigs (coherentConfigs2 dependent configs) =
        (if (applyConfigs configs).DisableWritePolling
            ∨ (applyConfigs configs).DependentTxID ≠ ""
         then { applyConfigs configs with DependentTxID := dependent }
         else applyConfigs configs)) := by
  constructor
  · simp [coherentConfigs2]
  · intro h
    simp [coherentConfigs2, h, applyConfigs_append_one, applyConfig]

/-- Witness for C1 at a concrete input with write polling disabled. -/
theorem coherent_call_dependent_injection_witness :
    applyConfigs (coherentConfigs2 "tx1"
        [Config.withDisableWritePolling true]) =
      (if (applyConfigs [Config.withDisableWritePolling true]).DisableWritePolling
          ∨ (applyConfigs [Config.withDisableWritePolling true]).DependentTxID ≠ ""
       then { applyConfigs [Config.withDisableWritePolling true] with
                DependentTxID := "tx1" }
       else applyConfigs [Config.withDisableWritePolling true]) :=
  (coherent_call_dependent_injection "tx1"
      [Config.withDisableWritePolling true]).2 (by decide)

/-- Claim C2: on a Call of the context-scoped coherence wrapper, when no
carrier is attached the option list passes through unchanged (no
dependency injected); when a carrier is attached and its slot is
non-empty, the flattened options carry the slot content as DependentTxID
unconditionally, overriding whatever dependent id the caller supplied. -/
theorem context_coherent_injection_overwrites
    (store : CarrierStore) (configs : List Config) :
    ((contextCoherentCtx configs).carrier = none →
      contextCoherentConfigs2 store configs = configs) ∧
    (∀ id, (contextCoherentCtx configs).carrier = some id →
      store id ≠ "" →
      applyConfigs (contextCoherentConfigs2 store configs) =
        { applyConfigs configs with DependentTxID := store id }) := by
  constructor
  · intro h
    simp [contextCoherentConfigs2, h]
  · intro id h hne
    simp [contextCoherentConfigs2, h, hne, applyConfigs_append_one, applyConfig]

/-- Witness for C2: a carrier with a non-empty slot overrides the
dependent id the caller supplied. -/
theorem context_coherent_injection_overwrites_witness :
    applyConfigs (contextCoherentConfigs2 (fun _ => "txA")
        [Config.withContext { carrier := some 0 }
        , Config.withDependentTxID "caller"]) =
      { applyConfigs
          [Config.withContext { carrier := some 0 }
          , Config.withDependentTxID "caller"] with
          DependentTxID := (fun _ : Nat => "txA") 0 } :=
  (context_coherent_injection_overwrites (fun _ => "txA")
      [Config.withContext { carrier := some 0 }
      , Config.withDependentTxID "caller"]).2 0 rfl (by decide)

/-- Claim C6: FlattenOptions fails exactly when serializing the payload
parameters of the folded draft fails, with that serialization error; when
the payload serializes it returns a snapshot carrying the serialized
bytes and no error; and on a serialization failure the wrapper Call
returns the error before any remote call reaches the plugin. -/
theorem flattenOptions_err_iff_marshal (now : String) (configs : List Config) :
    (∀ e, FlattenOptions now configs = Except.error e ↔
        jsonMarshal (applyConfigs configs).Params = Except.error e) ∧
    (∀ p, jsonMarshal (applyConfigs configs).Params = Except.ok p →
        ∃ fo, FlattenOptions now configs = Except.ok fo ∧ fo.Params = p) ∧
    (∀ e s tag method,
        jsonMarshal (applyConfigs configs).Params = Except.error e →
        substrateInstanceWrapperRPC.Call ⟨s, tag⟩ method now configs =
          Except.error (GoError.str e)) := by
  refine ⟨?_, ?_, ?_⟩
  · intro e
    cases h : jsonMarshal (applyConfigs configs).Params with
    | error e2 => simp [FlattenOptions, h]
    | ok p => simp [FlattenOptions, h]
  · intro p hp
    cases hF : FlattenOptions now configs with
    | error e =>
        exfalso
        simp [FlattenOptions, hp] at hF
    | ok fo =>
        simp [FlattenOptions, hp] at hF
        exact ⟨fo, rfl, by rw [← hF]⟩
  · intro e s tag method h
    simp [substrateInstanceWrapperRPC.Call, FlattenOptions, h]

/-- Witness for C6: an unserializable payload makes the wrapper Call fail
with the serialization error before reaching the plugin. -/
theorem flattenOptions_err_iff_marshal_witness :
    substrateInstanceWrapperRPC.Call ⟨implStub, "t"⟩ "m" "now"
        [Config.withParams GoValue.channel] =
      Except.error (GoError.str "json: unsupported type") :=
  (flattenOptions_err_iff_marshal "now" [Config.withParams GoValue.channel]).2.2
    "json: unsupported type" implStub "t" "m" rfl

/-- Claim C7: FlattenOptions is deterministic for a fixed mutator list
and timestamp generator: when the folded draft carries a generator the
result does not depend on the wall clock at all, so two invocations agree
in every field; the wall clock enters the snapshot only when no generator
was supplied. -/
theorem flattenOptions_deterministic (configs : List Config) :
    (∀ g, (applyConfigs configs).TimestampGenerator = some g →
      ∀ now1 now2, FlattenOptions now1 configs = FlattenOptions now2 configs) ∧
    ((applyConfigs configs).TimestampGenerator = none →
      ∀ now fo, FlattenOptions now configs = Except.ok fo →
        fo.Timestamp = now) := by
  constructor
  · intro g hg now1 now2
    simp [FlattenOptions, tsg, hg]
  · intro hg now fo hfo
    cases h : jsonMarshal (applyConfigs configs).Params with
    | error e => simp [FlattenOptions, h] at hfo
    | ok p =>
      simp [FlattenOptions, h, tsg, hg] at hfo
      rw [← hfo]

/-- Witness for C7: with a supplied generator, flattening under two
different wall clocks agrees. -/
theorem flattenOptions_deterministic_witness :
    FlattenOptions "clockA" [Config.withTimestampGenerator (fun _ => "T")] =
      FlattenOptions "clockB" [Config.withTimestampGenerator (fun _ => "T")] :=
  (flattenOptions_deterministic
      [Config.withTimestampGenerator (fun _ => "T")]).1
    (fun _ => "T") rfl "clockA" "clockB"

/-- Claim C3: in both coherence wrappers the dependency state advances
exactly on a successful underlying Call. Mutable-state variant: on an
underlying error the error is returned unmodified and the stored id is
unchanged; on success the stored id becomes the transaction id of the
response, even when empty. Context-scoped variant: on an underlying error
the error is returned unmodified and every carrier slot is unchanged; on
success the slot of the attached carrier receives the returned
transaction id and all other slots are unchanged. -/
theorem coherence_state_advance_on_success
    (underlying : List Config → Except GoError Response)
    (dependent : String) (store : CarrierStore) (configs : List Config) :
    (∀ e, underlying (coherentConfigs2 dependent configs) = Except.error e →
        coherentCall underlying dependent configs =
          (Except.error e, dependent)) ∧
    (∀ resp, underlying (coherentConfigs2 dependent configs) = Except.ok resp →
        coherentCall underlying dependent configs =
          (Except.ok resp, resp.TransactionID)) ∧
    (∀ e, underlying (contextCoherentConfigs2 store configs) = Except.error e →
        contextCoherentCall underlying store configs = (Except.error e, store)) ∧
    (∀ resp id,
        underlying (contextCoherentConfigs2 store configs) = Except.ok resp →
        (contextCoherentCtx configs).carrier = some id →
        (contextCoherentCall underlying store configs).1 = Except.ok resp ∧
        (contextCoherentCall underlying store configs).2 id =
          resp.TransactionID ∧
        ∀ j, j ≠ id →
          (contextCoherentCall underlying store configs).2 j = store j) := by
  refine ⟨?_, ?_, ?_, ?_⟩
  · intro e h
    simp [coherentCall, h]
  · intro resp h
    simp [coherentCall, h]
  · intro e h
    simp [contextCoherentCall, h]
  · intro resp id h hcar
    refine ⟨?_, ?_, ?_⟩
    · simp [contextCoherentCall, h, hcar]
    · simp [contextCoherentCall, h, hcar]
    · intro j hj
      simp [contextCoherentCall, h, hcar, hj]

/-- Witness for C3: a failing underlying call leaves the stored id of the
mutable-state wrapper unchanged and propagates the error. -/
theorem coherence_state_advance_on_success_witness :
    coherentCall (fun _ => Except.error (GoError.str "boom")) "t0" [] =
      (Except.error (GoError.str "boom"), "t0") :=
  (coherence_state_advance_on_success
      (fun _ => Except.error (GoError.str "boom")) "t0" emptyStore []).1
    (GoError.str "boom") rfl

/-- Claim C10: GetLastTransactionID is the empty string on the base RPC
wrapper, the mock wrapper and the context-scoped coherence wrapper
whatever preceded (their implementations are constant, and the carrier
store does not influence the context-scoped one); only the mutable-state
coherence wrapper returns a non-empty id, namely the transaction id
captured by its last successful Call. -/
theorem getLastTransactionID_variants
    (siwr : substrateInstanceWrapperRPC) (siwm : substrateInstanceWrapperMock)
    (store : CarrierStore)
    (underlying : List Config → Except GoError Response)
    (dependent : String) (configs : List Config) (resp : Response)
    (h : underlying (coherentConfigs2 dependent configs) = Except.ok resp) :
    siwr.GetLastTransactionID = "" ∧
    siwm.GetLastTransactionID = "" ∧
    substrateInstanceWrapperContextCoherent.GetLastTransactionID store = "" ∧
    substrateInstanceWrapperCoherent.GetLastTransactionID
        ⟨(coherentCall underlying dependent configs).2⟩ =
      resp.TransactionID := by
  refine ⟨rfl, rfl, rfl, ?_⟩
  simp [substrateInstanceWrapperCoherent.GetLastTransactionID, coherentCall, h]

/-- Witness for C10: after a successful call returning tx9, only the
mutable-state wrapper reports it. -/
theorem getLastTransactionID_variants_witness :
    substrateInstanceWrapperRPC.GetLastTransactionID
        ⟨Demo.implStub, "t"⟩ = "" ∧
    substrateInstanceWrapperMock.GetLastTransactionID
        ⟨Demo.implStub, "t"⟩ = "" ∧
    substrateInstanceWrapperContextCoherent.GetLastTransactionID
        emptyStore = "" ∧
    substrateInstanceWrapperCoherent.GetLastTransactionID
        ⟨(coherentCall (fun _ => Except.ok Demo.demoResponse) "" []).2⟩ =
      Demo.demoResponse.TransactionID :=
  getLastTransactionID_variants ⟨Demo.implStub, "t"⟩ ⟨Demo.implStub, "t"⟩
    emptyStore (fun _ => Except.ok Demo.demoResponse) "" [] Demo.demoResponse
    rfl

/-- Claim C8 is violated by the code: the client-side QueryBlock sends
the RPC method name Plugin.QueryInfo (substratecommon.go:612), so the
server dispatches the QueryInfo handler and the backend QueryBlock is
never invoked; the reply, gob-decoded into RespQueryBlock, carries a nil
Block, so the client returns none even though the backend would have
reported a block for this tag and height (here demoBlock, as the
correctly dispatched handler shows). -/
theorem pluginRPC_queryBlock_dispatches_queryInfo :
    PluginRPC.QueryBlock implStub true "t" 5 emptyCRO = Except.ok none ∧
    implStub.queryBlock "t" 5 emptyCRO = Except.ok demoBlock ∧
    PluginRPCServer.QueryBlock implStub
        { Tag := "t", Height := 5, Options := emptyCRO } =
      { Block := some demoBlock, Err := none } ∧
    (some demoBlock ≠ (none : Option Block)) := by
  refine ⟨rfl, rfl, rfl, ?_⟩
  simp

/-- Claim C9 is violated by the code: errors returned by the client-side
operations have dynamic type pointer-to-Error (RespCall.Err is a pointer
field), while PluginRPC.IsTimeoutError type-asserts on the value type
Error (substratecommon.go:624), so it returns false even for a
backend-reported application error whose timeout flag is set. The
transport-failure half of the claim holds: a failed round trip surfaces
the generic errRPC, distinct from every structured error, on which
IsTimeoutError is also false. -/
theorem pluginRPC_isTimeoutError_misses_ptr :
    PluginRPC.Call implTimeout true "t" "m" emptyCRO =
      Except.error (GoError.ptr { IsTimeoutError := true
                                , Diagnostic := "deadline" }) ∧
    PluginRPC.IsTimeoutError
        (GoError.ptr { IsTimeoutError := true, Diagnostic := "deadline" }) =
      false ∧
    PluginRPC.Call implTimeout false "t" "m" emptyCRO =
      Except.error errRPC ∧
    PluginRPC.IsTimeoutError errRPC = false ∧
    (∀ e : Error, errRPC ≠ GoError.val e ∧ errRPC ≠ GoError.ptr e) := by
  refine ⟨rfl, rfl, rfl, rfl, ?_⟩
  intro e
  exact ⟨by simp [errRPC], by simp [errRPC]⟩

/-- A Tick sequence produces one dispatch record per Tick. -/
theorem dispatchedAt_length (times : List Nat) (pending : List BatchEntry) :
    (dispatchedAt times pending).length = times.length := by
  induction times generalizing pending with
  | nil => rfl
  | cons now rest ih => simp [dispatchedAt, ih]

/-- Every entry fetched by a Tick is due at or before the now of that
Tick. -/
theorem mem_tickDue_le (e : BatchEntry) (now : Nat) (p : List BatchEntry)
    (h : e ∈ tickDue now p) : e.scheduledTime ≤ now := by
  simp [tickDue] at h
  exact h.2

/-- Peeling one Tick off the pending-set fold. -/
theorem pendingAfterTicks_cons (t : Nat) (rest : List Nat)
    (p : List BatchEntry) :
    pendingAfterTicks (t :: rest) p = pendingAfterTicks rest (tickRemaining t p) := by
  simp [pendingAfterTicks, List.foldl]

/-- An entry not yet due at any of the Tick times stays pending through
all of them. -/
theorem survive_not_due (e : BatchEntry) (ts : List Nat) (p : List BatchEntry)
    (he : e ∈ p) (h : ∀ t ∈ ts, ¬ e.scheduledTime ≤ t) :
    e ∈ pendingAfterTicks ts p := by
  induction ts generalizing p with
  | nil => exact he
  | cons t rest ih =>
    rw [pendingAfterTicks_cons]
    refine ih (tickRemaining t p) ?_ ?_
    · have ht := h t (by simp)
      simp [tickRemaining, List.mem_filter, he]
      omega
    · intro u hu
      exact h u (by simp [hu])

/-- The dispatch record of the Tick at position ts1.length, when the Tick
times split as ts1 then now then ts2. -/
theorem dispatchedAt_get_split (ts1 : List Nat) (now : Nat) (ts2 : List Nat)
    (p : List BatchEntry)
    (h : ts1.length < (dispatchedAt (ts1 ++ now :: ts2) p).length) :
    (dispatchedAt (ts1 ++ now :: ts2) p).get ⟨ts1.length, h⟩ =
      (now, tickDue now (pendingAfterTicks ts1 p)) := by
  induction ts1 generalizing p with
  | nil => rfl
  | cons t rest ih =>
    have h2 : rest.length <
        (dispatchedAt (rest ++ now :: ts2) (tickRemaining t p)).length := by
      rw [dispatchedAt_length]
      simp
    calc (dispatchedAt ((t :: rest) ++ now :: ts2) p).get ⟨(t :: rest).length, h⟩
        = (dispatchedAt (rest ++ now :: ts2) (tickRemaining t p)).get
            ⟨rest.length, h2⟩ := rfl
      _ = (now, tickDue now (pendingAfterTicks rest (tickRemaining t p))) :=
          ih (tickRemaining t p) h2
      _ = (now, tickDue now (pendingAfterTicks (t :: rest) p)) := by
          rw [pendingAfterTicks_cons]

/-- Claim C5 (spec-modelled, the batch driver sources are not under src):
an entry scheduled for time T is never among the entries a Tick
dispatches when the now of that Tick is before T; and when the Tick times
split as ts1 followed by now with the entry pending initially, not due at
any time in ts1, and due at now, the Tick at position ts1.length (the
first whose now reaches T) dispatches the entry. -/
theorem batch_tick_dispatch_time
    (e : BatchEntry) (times : List Nat) (pending : List BatchEntry) :
    (∀ x ∈ dispatchedAt times pending, e ∈ x.2 → e.scheduledTime ≤ x.1) ∧
    (∀ ts1 now ts2, times = ts1 ++ now :: ts2 →
      e ∈ pending →
      (∀ t ∈ ts1, ¬ e.scheduledTime ≤ t) →
      e.scheduledTime ≤ now →
      ∃ h : ts1.length < (dispatchedAt times pending).length,
        ((dispatchedAt times pending).get ⟨ts1.length, h⟩).1 = now ∧
        e ∈ ((dispatchedAt times pending).get ⟨ts1.length, h⟩).2) := by
  constructor
  · intro x hx
    induction times generalizing pending with
    | nil => simp [dispatchedAt] at hx
    | cons now rest ih =>
        simp only [dispatchedAt, List.mem_cons] at hx
        rcases hx with hx | hx
        · intro hmem
          rw [hx] at hmem ⊢
          exact mem_tickDue_le e now pending hmem
        · exact ih (tickRemaining now pending) hx
  · intro ts1 now ts2 heq he hnot hdue
    subst heq
    have h : ts1.length < (dispatchedAt (ts1 ++ now :: ts2) pending).length := by
      rw [dispatchedAt_length]
      simp
    refine ⟨h, ?_, ?_⟩
    · rw [dispatchedAt_get_split]
    · rw [dispatchedAt_get_split]
      simp only [tickDue, List.mem_filter]
      exact ⟨survive_not_due e ts1 pending he hnot, by simpa using hdue⟩

/-- Witness for C5: an entry due at 5 is skipped by the Tick at 3 and
dispatched by the following Tick at 7. -/
theorem batch_tick_dispatch_time_witness :
    ∃ h : 1 < (dispatchedAt [3, 7]
        [{ batchName := "q", requestID := "r", scheduledTime := 5
         , payload := "p" }]).length,
      ((dispatchedAt [3, 7]
          [{ batchName := "q", requestID := "r", scheduledTime := 5
           , payload := "p" }]).get ⟨1, h⟩).1 = 7 ∧
      ({ batchName := "q", requestID := "r", scheduledTime := 5
       , payload := "p" } : BatchEntry) ∈
        ((dispatchedAt [3, 7]
            [{ batchName := "q", requestID := "r", scheduledTime := 5
             , payload := "p" }]).get ⟨1, h⟩).2 :=
  (batch_tick_dispatch_time
      { batchName := "q", requestID := "r", scheduledTime := 5, payload := "p" }
      [3, 7]
      [{ batchName := "q", requestID := "r", scheduledTime := 5
       , payload := "p" }]).2
    [3] 7 [] rfl (by decide) (by decide) (by decide)

/-- The context of a chain call holds exactly its carrier. -/
theorem contextCoherentCtx_callConfigs (cid : Nat) :
    contextCoherentCtx (callConfigs cid) = { carrier := some cid } := rfl

/-- The dependency hint a call on a carrier would carry is the content of
its slot (empty slot meaning no injected dependency). -/
theorem injectedHint_eq_store (store : CarrierStore) (cid : Nat) :
    injectedHint store cid = store cid := by
  unfold injectedHint contextCoherentConfigs2
  rw [contextCoherentCtx_callConfigs]
  by_cases h : store cid = ""
  · simp [h, callConfigs, applyConfigs, applyConfig, emptyRequestOptions]
  · simp [h, callConfigs, applyConfigs, applyConfig, emptyRequestOptions]

/-- A chain call leaves the slot of every other carrier unchanged. -/
theorem chainStep_frame (store : CarrierStore) (ev : ChainEvent) (j : Nat)
    (hj : j ≠ ev.cid) : chainStep store ev j = store j := by
  cases hr : ev.result with
  | error e =>
      simp [chainStep, contextCoherentCall, contextCoherentCtx_callConfigs, hr]
  | ok r =>
      simp [chainStep, contextCoherentCall, contextCoherentCtx_callConfigs, hr, hj]

/-- A successful chain call stores its returned transaction id in its own
slot. -/
theorem chainStep_self_ok (store : CarrierStore) (a : Nat) (r : Response) :
    chainStep store (ChainEvent.mk a (Except.ok r)) a = r.TransactionID := by
  simp [chainStep, contextCoherentCall, contextCoherentCtx_callConfigs]

/-- A failing chain call leaves every slot unchanged. -/
theorem chainStep_err (store : CarrierStore) (a : Nat) (e : GoError) :
    chainStep store (ChainEvent.mk a (Except.error e)) = store := by
  simp [chainStep, contextCoherentCall, contextCoherentCtx_callConfigs]

/-- Running a concatenation of event sequences composes the stores. -/
theorem chainRun_append (store : CarrierStore) (l1 l2 : List ChainEvent) :
    chainRun store (l1 ++ l2) = chainRun (chainRun store l1) l2 := by
  induction l1 generalizing store with
  | nil => rfl
  | cons ev rest ih => simp [chainRun, ih]

/-- The transaction ids of a suffix are among those of the whole
sequence. -/
theorem eventTxIDs_cons_sub (a : Nat) (ev : ChainEvent)
    (rest : List ChainEvent) (s : String) (h : s ∈ eventTxIDs a rest) :
    s ∈ eventTxIDs a (ev :: rest) := by
  simp only [eventTxIDs, List.filterMap_cons]
  cases hf : (if ev.cid = a then
      match ev.result with
      | Except.ok r => some r.TransactionID
      | Except.error _ => none
    else none) with
  | none => exact h
  | some b => exact List.mem_cons_of_mem b h

/-- The transaction ids of a prefix are among those of the whole
sequence. -/
theorem eventTxIDs_append_left (a : Nat) (p q : List ChainEvent)
    (s : String) (h : s ∈ eventTxIDs a p) : s ∈ eventTxIDs a (p ++ q) := by
  simp only [eventTxIDs, List.filterMap_append] at *
  exact List.mem_append_left _ h

/-- The transaction id of a successful head event of chain a is among the
ids of chain a. -/
theorem eventTxIDs_head_mem (a : Nat) (r : Response)
    (rest : List ChainEvent) :
    r.TransactionID ∈ eventTxIDs a (ChainEvent.mk a (Except.ok r) :: rest) := by
  simp [eventTxIDs, List.filterMap_cons]

/-- After any interleaved run, the slot of carrier a holds its initial
content or a transaction id returned to a successful call of chain a. -/
theorem chainRun_mem (store : CarrierStore) (evs : List ChainEvent) (a : Nat) :
    chainRun store evs a = store a ∨
      chainRun store evs a ∈ eventTxIDs a evs := by
  induction evs generalizing store with
  | nil => exact Or.inl rfl
  | cons ev rest ih =>
    have hrun : chainRun store (ev :: rest) = chainRun (chainStep store ev) rest :=
      rfl
    rcases ih (chainStep store ev) with h | h
    · rw [hrun, h]
      by_cases hc : ev.cid = a
      · cases ev with
        | mk cid result =>
          cases result with
          | ok r =>
              right
              simp only at hc
              subst hc
              rw [chainStep_self_ok]
              exact eventTxIDs_head_mem cid r rest
          | error e =>
              left
              simp only at hc
              subst hc
              rw [chainStep_err]

      · left
        exact chainStep_frame store ev a (fun hja => hc hja.symm)
    · right
      rw [hrun]
      exact eventTxIDs_cons_sub a ev rest _ h

/-- Claim C4: for two interleaved chains on distinct carriers a and b
whose backend-returned transaction ids are disjoint (transaction ids are
backend-unique across chains), the dependency hint injected into any call
of chain a, after any interleaved prefix, is never a transaction id
stored by chain b; and in a sequence of successful calls on one carrier,
the hint of each call equals the transaction id returned to the
immediately preceding call. -/
theorem context_coherent_chain_isolation (a b : Nat) (_hab : a ≠ b) :
    (∀ evs p q : List ChainEvent, evs = p ++ q →
      (∀ ev ∈ evs, ev.cid = a ∨ ev.cid = b) →
      (∀ s ∈ eventTxIDs a evs, s ∉ eventTxIDs b evs) →
      injectedHint (chainRun emptyStore p) a ≠ "" →
      injectedHint (chainRun emptyStore p) a ∉ eventTxIDs b evs) ∧
    (∀ (rs : List Response) (r : Response),
      injectedHint
        (chainRun emptyStore
          ((rs ++ [r]).map (fun x => ChainEvent.mk a (Except.ok x)))) a =
        r.TransactionID) := by
  constructor
  · intro evs p q heq hcids hdisj hne
    rw [injectedHint_eq_store] at hne ⊢
    rcases chainRun_mem emptyStore p a with h | h
    · exact absurd h hne
    · exact hdisj _ (heq ▸ eventTxIDs_append_left a p q _ h)
  · intro rs r
    rw [injectedHint_eq_store, List.map_append, chainRun_append]
    have : chainRun (chainRun emptyStore
        (rs.map (fun x => ChainEvent.mk a (Except.ok x))))
        ([r].map (fun x => ChainEvent.mk a (Except.ok x))) =
        chainStep (chainRun emptyStore
          (rs.map (fun x => ChainEvent.mk a (Except.ok x))))
          (ChainEvent.mk a (Except.ok r)) := rfl
    rw [this, chainStep_self_ok]

/-- Witness for C4 at a concrete interleaving of two one-call chains. -/
theorem context_coherent_chain_isolation_witness :
    injectedHint
        (chainRun emptyStore
          [ChainEvent.mk 0 (Except.ok
            { ResultJSON := [], HasError := false, ErrorCode := 0
            , ErrorMessage := "", ErrorJSON := [], TransactionID := "tA" })])
        0 ∉
      eventTxIDs 1
        [ChainEvent.mk 0 (Except.ok
          { ResultJSON := [], HasError := false, ErrorCode := 0
          , ErrorMessage := "", ErrorJSON := [], TransactionID := "tA" }),
         ChainEvent.mk 1 (Except.ok
          { ResultJSON := [], HasError := false, ErrorCode := 0
          , ErrorMessage := "", ErrorJSON := [], TransactionID := "tB" })] :=
  (context_coherent_chain_isolation 0 1 (by decide)).1
    [ChainEvent.mk 0 (Except.ok
      { ResultJSON := [], HasError := false, ErrorCode := 0
      , ErrorMessage := "", ErrorJSON := [], TransactionID := "tA" }),
     ChainEvent.mk 1 (Except.ok
      { ResultJSON := [], HasError := false, ErrorCode := 0
      , ErrorMessage := "", ErrorJSON := [], TransactionID := "tB" })]
    [ChainEvent.mk 0 (Except.ok
      { ResultJSON := [], HasError := false, ErrorCode := 0
      , ErrorMessage := "", ErrorJSON := [], TransactionID := "tA" })]
    [ChainEvent.mk 1 (Except.ok
      { ResultJSON := [], HasError := false, ErrorCode := 0
      , ErrorMessage := "", ErrorJSON := [], TransactionID := "tB" })]
    rfl (by decide) (by decide) (by decide)

end Claims
